import Mathlib

/-!
Verification development for the Rebutly debate-platform core:
matchmaking queue, human-vs-human phase state machine, and the
Elo-style rating settlement function.

The definitions below are shallow embeddings of the TypeScript / SQL
sources of the repository.  JavaScript numbers are modelled as `ℤ` where
the source only ever stores integers (ratings, counters, timestamps), as
`ℚ` where the source manipulates exact small fractions (actual scores
0, 0.5, 1) and as `ℝ` where the source computes with transcendental
functions (the expected-score formula uses 10^x for a real exponent);
`Math.round` is modelled by `round` (both round half toward +∞).
Database tables are modelled as Lean lists of rows; supabase
`.eq`-filtered queries become `List.filter` / `List.find?`, updates
become `List.map` with a conditional replacement, inserts become list
append.
-/

namespace Rebutly

/-! ## Enumerations (src/index.ts database enums) -/

/-- Database enum debate_format. -/
inductive DebateFormat
  | BP | AP | LD | PF | WSDC
deriving DecidableEq, Repr

/-- Database enum match_mode. -/
inductive MatchMode
  | ranked | unranked
deriving DecidableEq, Repr

/-- Database enum match_result. -/
inductive MatchResult
  | win | loss | draw
deriving DecidableEq, Repr

/-- Database enum queue_status. -/
inductive QueueStatus
  | waiting | matched | cancelled | expired
deriving DecidableEq, Repr

/-- Database enum room_status. -/
inductive RoomStatus
  | reserved | live | completed | abandoned
deriving DecidableEq, Repr

/-! ## Phase state machine (src/HeroSection.tsx)

The client's DebatePhase union type, the SPEECH_PHASES constant and
the getNextPhase / handlePhaseEnd functions of the LiveDebateRoom
component. -/

/-- The DebatePhase union type of src/HeroSection.tsx. -/
inductive DebatePhase
  | loading
  | waiting_for_opponent
  | setup
  | prep
  | prop_constructive
  | opp_constructive
  | prop_rebuttal
  | opp_rebuttal
  | prop_closing
  | opp_closing
  | transition
  | debate_complete
  | judging
  | results
deriving DecidableEq, Repr

/-- The SPEECH_PHASES constant: the fixed order of the six speech phases. -/
def SPEECH_PHASES : List DebatePhase :=
  [ .prop_constructive
  , .opp_constructive
  , .prop_rebuttal
  , .opp_rebuttal
  , .prop_closing
  , .opp_closing ]

/-- getNextPhase of src/HeroSection.tsx: look the current phase up in
SPEECH_PHASES and return the following entry when the index is in
range, otherwise null.  (In JS a phase that is not a speech phase gets
index -1 and fails the range check; here List.indexOf returns the list
length, which fails the same range check.) -/
def getNextPhase (currentPhase : DebatePhase) : Option DebatePhase :=
  let currentIndex := SPEECH_PHASES.indexOf currentPhase
  if currentIndex < SPEECH_PHASES.length - 1 then
    SPEECH_PHASES[currentIndex + 1]?
  else
    none

/-- The phase-advancing effect of handlePhaseEnd of src/HeroSection.tsx:
when getNextPhase yields a next speech phase the client queues it (and
enters it after the transition pause via startPhase); otherwise the
phase becomes debate_complete. -/
def handlePhaseEnd (phase : DebatePhase) : DebatePhase :=
  match getNextPhase phase with
  | some nextPhase => nextPhase
  | none => .debate_complete

/-! ## advance_debate_phase (src/20260204000001_add_hvh_debate_fields.sql)

The SQL function performs
UPDATE debate_rooms SET current_phase = p_next_phase
WHERE id = p_room_id AND current_phase = p_current_phase
and returns whether the row count was positive.  The debate_rooms
table is modelled by its phase column: a partial map from room id to
the stored current_phase (TEXT).  id is the primary key, so at most
one row matches. -/

/-- advance_debate_phase of the SQL migration: conditionally update the
room's current_phase and report whether a row was updated. -/
def advance_debate_phase (rooms : ℕ → Option String)
    (p_room_id : ℕ) (p_current_phase p_next_phase : String) :
    (ℕ → Option String) × Bool :=
  match rooms p_room_id with
  | some stored =>
      if stored = p_current_phase then
        (Function.update rooms p_room_id (some p_next_phase), true)
      else
        (rooms, false)
  | none => (rooms, false)

/-! ## Rating engine data model (src/index.ts, update-elo edge function)

Rows of the tables the update-elo handler touches.  Nullable columns
are Option; elo_by_format (a JSON object keyed by format) is an
association list. -/

/-- A row of debate_rooms (the columns read by update-elo). -/
structure Room where
  id : ℕ
  format : DebateFormat
  mode : MatchMode
  is_ai_opponent : Bool
  created_at : ℤ
  started_at : Option ℤ
  ended_at : Option ℤ
deriving DecidableEq, Repr

/-- A row of match_result_submissions. -/
structure Submission where
  room_id : ℕ
  user_id : ℕ
  submitted_result : MatchResult
deriving DecidableEq, Repr

/-- A row of debate_participants (the columns read by update-elo). -/
structure Participant where
  room_id : ℕ
  user_id : Option ℕ
  is_ai : Bool
deriving DecidableEq, Repr

/-- A row of profiles (the columns read and written by update-elo). -/
structure Profile where
  id : ℕ
  user_id : ℕ
  elo_by_format : List (DebateFormat × ℤ)
  total_debates : Option ℤ
  total_wins : Option ℤ
  current_streak : Option ℤ
deriving DecidableEq, Repr

/-- A row of match_history (the columns inserted by update-elo). -/
structure HistoryRow where
  room_id : ℕ
  user_a_id : ℕ
  user_b_id : ℕ
  format : DebateFormat
  mode : MatchMode
  winner_user_id : Option ℕ
  is_draw : Bool
  rating_before_a : ℤ
  rating_after_a : ℤ
  rating_before_b : ℤ
  rating_after_b : ℤ
  duration_seconds : ℤ
deriving DecidableEq, Repr

/-- The slice of the transactional store the update-elo handler touches. -/
structure DB where
  rooms : List Room
  submissions : List Submission
  participants : List Participant
  profiles : List Profile
  history : List HistoryRow
deriving DecidableEq, Repr

/-- Lookup of elo_by_format[format] on the JSON object. -/
def lookupElo (elo : List (DebateFormat × ℤ)) (f : DebateFormat) : Option ℤ :=
  (elo.find? (fun p => p.1 == f)).map (·.2)

/-- The JS object spread update of the elo map,
new = old object with the format key set to v. -/
def setElo (elo : List (DebateFormat × ℤ)) (f : DebateFormat) (v : ℤ) :
    List (DebateFormat × ℤ) :=
  elo.filter (fun p => !(p.1 == f)) ++ [(f, v)]

/-- ratingA / ratingB of src/index.ts:
(profile.elo_by_format)?.[format] || 1200.
A missing key yields 1200; so does a stored 0, because 0 is falsy in JS. -/
def ratingFor (pr : Profile) (f : DebateFormat) : ℤ :=
  match lookupElo pr.elo_by_format f with
  | some r => if r = 0 then 1200 else r
  | none => 1200

/-- getKFactor of src/index.ts. -/
def getKFactor (rating : ℤ) : ℕ :=
  if rating < 1200 then 40
  else if rating < 2000 then 20
  else 10

/-- expectedA / expectedB of src/index.ts:
1 / (1 + Math.pow(10, (ratingOpp - ratingSelf) / 400)). -/
noncomputable def expectedScore (ratingSelf ratingOpp : ℤ) : ℝ :=
  1 / (1 + (10 : ℝ) ^ (((ratingOpp : ℝ) - (ratingSelf : ℝ)) / 400))

/-- newRatingA / newRatingB of src/index.ts:
Math.round(rating + k * (score - expected)). -/
noncomputable def newRating (old : ℤ) (k : ℕ) (score : ℚ) (expected : ℝ) : ℤ :=
  round ((old : ℝ) + (k : ℝ) * ((score : ℝ) - expected))

/-- The consistency check of src/index.ts:
(results.includes('win') && results.includes('loss')) ||
results.every(r => r === 'draw'). -/
def resultsConsistent (results : List MatchResult) : Bool :=
  (results.contains .win && results.contains .loss) || results.all (· == .draw)

/-- The possible responses of the update-elo handler. -/
inductive SettleResponse
  | roomNotFound
  | notRequired
  | notEnoughSubmissions
  | inconsistentResults
  | participantsNotFound
  | profilesNotFound
  | settled (ratingChangeA ratingChangeB : ℤ)
deriving DecidableEq, Repr

/-- The update-elo handler of src/index.ts (the app.post body), as a
function of the store, the requested roomId and the ambient clock (the
source reads Date.now() when the room has no ended_at).  Every error
path leaves the store unchanged; the success path applies the two
profile updates and the match_history insert and returns the rating
deltas. -/
noncomputable def settle (db : DB) (roomId : ℕ) (now : ℤ) : DB × SettleResponse :=
  match db.rooms.find? (fun r => r.id == roomId) with
  | none => (db, .roomNotFound)
  | some room =>
    if room.mode ≠ MatchMode.ranked ∨ room.is_ai_opponent then
      (db, .notRequired)
    else
      let submissions := db.submissions.filter (fun s => s.room_id == roomId)
      if submissions.length < 2 then (db, .notEnoughSubmissions)
      else
        let results := submissions.map (·.submitted_result)
        if ¬ resultsConsistent results then (db, .inconsistentResults)
        else
          let participants :=
            db.participants.filter (fun p => p.room_id == roomId && !p.is_ai)
          if participants.length < 2 then (db, .participantsNotFound)
          else
            let userIds := participants.map (·.user_id)
            match db.profiles.filter
                (fun pr => userIds.contains (some pr.user_id)) with
            | userA :: userB :: _ =>
              let isDraw := results.all (· == .draw)
              let winnerUserId : Option ℕ :=
                if isDraw then none
                else (submissions.find?
                  (fun s => s.submitted_result == .win)).map (·.user_id)
              let format := room.format
              let ratingA := ratingFor userA format
              let ratingB := ratingFor userB format
              let expectedA := expectedScore ratingA ratingB
              let expectedB := expectedScore ratingB ratingA
              let scoreA : ℚ :=
                if isDraw then 1/2
                else if winnerUserId = some userA.user_id then 1 else 0
              let scoreB : ℚ :=
                if isDraw then 1/2
                else if winnerUserId = some userA.user_id then 0 else 1
              let kA := getKFactor ratingA
              let kB := getKFactor ratingB
              let newRatingA := newRating ratingA kA scoreA expectedA
              let newRatingB := newRating ratingB kB scoreB expectedB
              let updatedA : Profile :=
                { userA with
                  elo_by_format := setElo userA.elo_by_format format newRatingA
                  total_debates := some (userA.total_debates.getD 0 + 1)
                  total_wins := if scoreA = 1
                    then some (userA.total_wins.getD 0 + 1)
                    else userA.total_wins
                  current_streak := if scoreA = 1
                    then some (userA.current_streak.getD 0 + 1)
                    else some 0 }
              let updatedB : Profile :=
                { userB with
                  elo_by_format := setElo userB.elo_by_format format newRatingB
                  total_debates := some (userB.total_debates.getD 0 + 1)
                  total_wins := if scoreB = 1
                    then some (userB.total_wins.getD 0 + 1)
                    else userB.total_wins
                  current_streak := if scoreB = 1
                    then some (userB.current_streak.getD 0 + 1)
                    else some 0 }
              let profiles1 := db.profiles.map
                (fun p => if p.id == userA.id then updatedA else p)
              let profiles2 := profiles1.map
                (fun p => if p.id == userB.id then updatedB else p)
              let startTime := room.started_at.getD room.created_at
              let endTime := room.ended_at.getD now
              let durationSeconds := Int.fdiv (endTime - startTime) 1000
              let hist : HistoryRow :=
                { room_id := roomId
                  user_a_id := userA.user_id
                  user_b_id := userB.user_id
                  format := room.format
                  mode := room.mode
                  winner_user_id := winnerUserId
                  is_draw := isDraw
                  rating_before_a := ratingA
                  rating_after_a := newRatingA
                  rating_before_b := ratingB
                  rating_after_b := newRatingB
                  duration_seconds := durationSeconds }
              ({ db with
                  profiles := profiles2
                  history := db.history ++ [hist] },
               .settled (newRatingA - ratingA) (newRatingB - ratingB))
            | _ => (db, .profilesNotFound)

/-! ## Queue store (src/unnamed/part_000, useMatchmaking hook, and the
unique partial index of src/unnamed/part_002) -/

/-- A row of match_queue_entries (the columns the claims need). -/
structure QueueEntry where
  id : ℕ
  user_id : ℕ
  format : DebateFormat
  mode : MatchMode
  status : QueueStatus
  room_id : Option ℕ
deriving DecidableEq, Repr

/-- The delete step of joinQueue (part_000 lines 185-190):
delete().eq('user_id', uid).eq('status', 'waiting'). -/
def deleteWaitingOf (q : List QueueEntry) (uid : ℕ) : List QueueEntry :=
  q.filter (fun e => !(e.user_id == uid && e.status == QueueStatus.waiting))

/-- joinQueue of part_000 (lines 185-208): first delete any existing
waiting entries for this user, then insert a new waiting entry. -/
def joinQueue (q : List QueueEntry) (uid newId : ℕ)
    (format : DebateFormat) (mode : MatchMode) : List QueueEntry :=
  deleteWaitingOf q uid ++
    [{ id := newId, user_id := uid, format := format, mode := mode
       status := QueueStatus.waiting, room_id := none }]

/-- The condition enforced by the unique partial index
one_active_queue_per_user_waiting of part_002:
CREATE UNIQUE INDEX ... ON match_queue_entries (user_id)
WHERE status = 'waiting'.  At most one waiting row per user.
(Quantifying over the users occurring in the table keeps the predicate
decidable; a user with no row has zero waiting rows anyway.) -/
def one_active_queue_per_user_waiting (q : List QueueEntry) : Prop :=
  ∀ u ∈ q.map (fun e => e.user_id),
    (q.filter (fun e => e.user_id == u && e.status == QueueStatus.waiting)).length ≤ 1

instance (q : List QueueEntry) :
    Decidable (one_active_queue_per_user_waiting q) := by
  unfold one_active_queue_per_user_waiting
  infer_instance

/-! ## The Matcher / AI-fallback race (src/unnamed/part_000)

The AI-fallback timer (part_000 lines 230-246) performs two separate
store operations with an await gap between them:
1. re-read the queue entry (select ... .eq('id', entry.id).single());
2. if the snapshot read in step 1 says 'waiting', run createAIMatch,
   which inserts an AI room and then updates the queue entry filtered
   by id ONLY (lines 124-132) - the update is not conditioned on the
   status still being 'waiting'.
The matchmaking-worker edge function that races with it is not part of
the sources, so its entry-claiming step is modelled from the spec.
The shared state is the queue entry and the set of debate rooms. -/

/-- A debate room as seen by the matchmaking race (id and opponent kind). -/
structure MatchRoom where
  id : ℕ
  is_ai_opponent : Bool
deriving DecidableEq, Repr

/-- The store state over which the Matcher and the AI-fallback timer
race, plus the fallback timer's private snapshot from its re-read. -/
structure MatchmakingState where
  entry : QueueEntry
  rooms : List MatchRoom
  fallbackSnapshot : Option QueueEntry
deriving DecidableEq, Repr

/-- Modelled from the spec: the matchmaking-worker edge function is not
under src/ (only its invocations are); spec section 4.2 step 1 says the
Matcher transitions the entry from waiting to matched conditioned on it
still being waiting (a compare-and-swap per entry) and reserves a
Session. -/
def matcherClaimEntry (s : MatchmakingState) (humanRoomId : ℕ) :
    MatchmakingState :=
  if s.entry.status = QueueStatus.waiting then
    { s with
      entry := { s.entry with
        status := QueueStatus.matched, room_id := some humanRoomId }
      rooms := s.rooms ++ [{ id := humanRoomId, is_ai_opponent := false }] }
  else s

/-- The fallback timer's re-read (part_000 lines 236-240): select the
entry by id and keep the returned row as a local snapshot. -/
def aiFallbackRead (s : MatchmakingState) : MatchmakingState :=
  { s with fallbackSnapshot := some s.entry }

/-- createAIMatch of part_000 (lines 83-142): insert a debate room with
is_ai_opponent = true, then update the queue entry to matched with the
new room id, filtered by the entry id only (lines 124-132). -/
def createAIMatch (s : MatchmakingState) (entry : QueueEntry)
    (aiRoomId : ℕ) : MatchmakingState :=
  { s with
    rooms := s.rooms ++ [{ id := aiRoomId, is_ai_opponent := true }]
    entry := if s.entry.id = entry.id then
        { s.entry with
          status := QueueStatus.matched, room_id := some aiRoomId }
      else s.entry }

/-- The guarded action of the fallback timer (part_000 lines 242-244):
if the snapshot from the re-read still says 'waiting', call
createAIMatch with that snapshot. -/
def aiFallbackAct (s : MatchmakingState) (aiRoomId : ℕ) : MatchmakingState :=
  match s.fallbackSnapshot with
  | some currentEntry =>
      if currentEntry.status = QueueStatus.waiting then
        createAIMatch s currentEntry aiRoomId
      else s
  | none => s

/-! ## Client-side phase synchronization (src/HeroSection.tsx)

startPhase (lines 571-589) mutates only the local component state and
sends a phase_change broadcast (broadcastPhaseChange, lines 412-419);
the receiving side's phase_change handler (lines 853-858) contains only
a console.log - it performs no state update. -/

/-- The hvh_format union type of src/HeroSection.tsx. -/
inductive HvHFormat
  | rapid | standard | extended
deriving DecidableEq, Repr

/-- One row of the FORMAT_TIMES table of src/HeroSection.tsx. -/
structure FormatTimes where
  prep : ℕ
  constructive : ℕ
  rebuttal : ℕ
  closing : ℕ
deriving DecidableEq, Repr

/-- The FORMAT_TIMES constant of src/HeroSection.tsx. -/
def FORMAT_TIMES : HvHFormat → FormatTimes
  | .rapid => { prep := 30, constructive := 60, rebuttal := 60, closing := 60 }
  | .standard => { prep := 60, constructive := 180, rebuttal := 120, closing := 90 }
  | .extended => { prep := 900, constructive := 420, rebuttal := 240, closing := 180 }

/-- getSpeechTime of src/HeroSection.tsx: dispatch on the substring of
the phase name ('constructive' / 'rebuttal' / 'closing'), defaulting to
the constructive time. -/
def getSpeechTime (hvhFormat : HvHFormat) (phaseToCheck : DebatePhase) : ℕ :=
  let times := FORMAT_TIMES hvhFormat
  match phaseToCheck with
  | .prop_constructive | .opp_constructive => times.constructive
  | .prop_rebuttal | .opp_rebuttal => times.rebuttal
  | .prop_closing | .opp_closing => times.closing
  | _ => times.constructive

/-- The local state of one LiveDebateRoom client that the phase logic
touches. -/
structure ClientState where
  userId : ℕ
  phase : DebatePhase
  timeLeft : ℕ
  isTimerRunning : Bool
deriving DecidableEq, Repr

/-- The payload of a phase_change broadcast (broadcastPhaseChange,
src/HeroSection.tsx lines 412-419). -/
structure PhaseBroadcast where
  userId : ℕ
  phase : DebatePhase
deriving DecidableEq, Repr

/-- startPhase of src/HeroSection.tsx (lines 571-589): set the local
phase, reset the local timer, and send a phase_change broadcast.  No
store write and no conditional check against the opponent's phase is
performed. -/
def startPhase (self : ClientState) (hvhFormat : HvHFormat)
    (newPhase : DebatePhase) : ClientState × PhaseBroadcast :=
  ({ self with
      phase := newPhase
      timeLeft := getSpeechTime hvhFormat newPhase
      isTimerRunning := true },
   { userId := self.userId, phase := newPhase })

/-- The phase_change broadcast handler of src/HeroSection.tsx (lines
853-858): when the payload comes from the other user the handler body
is a single console.log; in neither branch is the local phase (or any
other state) updated. -/
def onPhaseChangeBroadcast (self : ClientState) (payload : PhaseBroadcast) :
    ClientState :=
  if payload.userId ≠ self.userId then
    self
  else
    self

/-! ## Helper lemmas -/

/-- At equal ratings the exponent is 0, so the expected score is exactly
one half. -/
theorem expectedScore_self (r : ℤ) : expectedScore r r = 1/2 := by
  unfold expectedScore
  have h : ((r : ℝ) - (r : ℝ)) / 400 = 0 := by ring
  rw [h, Real.rpow_zero]
  norm_num

/-- Evaluation of the rounded rating update for a win at K = 20 against
an expected score of one half. -/
theorem newRating_1200_win : newRating 1200 20 1 (1/2) = 1210 := by
  unfold newRating
  have h : ((1200 : ℤ) : ℝ) + ((20 : ℕ) : ℝ) * (((1 : ℚ) : ℝ) - 1/2)
      = ((1210 : ℤ) : ℝ) := by push_cast; ring
  rw [h, round_intCast]

/-- Evaluation of the rounded rating update for a loss at K = 20 against
an expected score of one half. -/
theorem newRating_1200_loss : newRating 1200 20 0 (1/2) = 1190 := by
  unfold newRating
  have h : ((1200 : ℤ) : ℝ) + ((20 : ℕ) : ℝ) * (((0 : ℚ) : ℝ) - 1/2)
      = ((1190 : ℤ) : ℝ) := by push_cast; ring
  rw [h, round_intCast]

/-! ## C7 - fixed speech-phase order -/

/-- C7: the sequence of speech phases is exactly prop_constructive,
opp_constructive, prop_rebuttal, opp_rebuttal, prop_closing,
opp_closing in that fixed total order, proposition preceding opposition
within each pair; getNextPhase steps through the list with no phase
skipped or repeated, and after the last closing speech handlePhaseEnd
moves to debate_complete, from which no further speech phase follows. -/
theorem speech_phases_fixed_order :
    getNextPhase .prop_constructive = some .opp_constructive
  ∧ getNextPhase .opp_constructive = some .prop_rebuttal
  ∧ getNextPhase .prop_rebuttal = some .opp_rebuttal
  ∧ getNextPhase .opp_rebuttal = some .prop_closing
  ∧ getNextPhase .prop_closing = some .opp_closing
  ∧ getNextPhase .opp_closing = none
  ∧ handlePhaseEnd .opp_closing = .debate_complete
  ∧ SPEECH_PHASES.Nodup
  ∧ SPEECH_PHASES.length = 6
  ∧ SPEECH_PHASES.indexOf .prop_constructive < SPEECH_PHASES.indexOf .opp_constructive
  ∧ SPEECH_PHASES.indexOf .prop_rebuttal < SPEECH_PHASES.indexOf .opp_rebuttal
  ∧ SPEECH_PHASES.indexOf .prop_closing < SPEECH_PHASES.indexOf .opp_closing
  ∧ getNextPhase .debate_complete = none := by
  decide

/-! ## C6 - the conditional phase write of advance_debate_phase -/

/-- C6: advance_debate_phase sets the room's current_phase to
p_next_phase and returns true exactly when the stored current_phase
equals p_current_phase; in every other case (wrong stored phase, or no
such room) the table is returned unchanged together with false - the
phase is never blindly overwritten. -/
theorem advance_debate_phase_conditional (rooms : ℕ → Option String)
    (p_room_id : ℕ) (p_current_phase p_next_phase : String) :
    ((advance_debate_phase rooms p_room_id p_current_phase p_next_phase).2 = true
      ↔ rooms p_room_id = some p_current_phase)
  ∧ (advance_debate_phase rooms p_room_id p_current_phase p_next_phase).1
      = (if rooms p_room_id = some p_current_phase
         then Function.update rooms p_room_id (some p_next_phase)
         else rooms) := by
  unfold advance_debate_phase
  cases h : rooms p_room_id with
  | none => simp [h]
  | some stored =>
    by_cases hs : stored = p_current_phase
    · simp [h, hs]
    · simp [h, hs]

/-! ## C5 - the phase_change broadcast is not adopted by the receiver -/

/-- C5 at the failing input: client A (the race winner) advances to
opp_constructive via startPhase and broadcasts the change; client B
receives the phase_change broadcast from the other user, but the
handler leaves B's entire state - in particular its phase - unchanged,
so the two clients observe different currentPhase values.  The payload
did carry the new phase; the handler simply ignores it. -/
theorem phase_change_broadcast_ignored :
    (startPhase
        { userId := 1, phase := .prop_constructive, timeLeft := 0,
          isTimerRunning := false }
        .standard .opp_constructive).1.phase = .opp_constructive
  ∧ (startPhase
        { userId := 1, phase := .prop_constructive, timeLeft := 0,
          isTimerRunning := false }
        .standard .opp_constructive).2.phase = .opp_constructive
  ∧ onPhaseChangeBroadcast
        { userId := 2, phase := .prop_constructive, timeLeft := 5,
          isTimerRunning := true }
        (startPhase
          { userId := 1, phase := .prop_constructive, timeLeft := 0,
            isTimerRunning := false }
          .standard .opp_constructive).2
      = { userId := 2, phase := .prop_constructive, timeLeft := 5,
          isTimerRunning := true }
  ∧ (onPhaseChangeBroadcast
        { userId := 2, phase := .prop_constructive, timeLeft := 5,
          isTimerRunning := true }
        (startPhase
          { userId := 1, phase := .prop_constructive, timeLeft := 0,
            isTimerRunning := false }
          .standard .opp_constructive).2).phase
      ≠ DebatePhase.opp_constructive := by
  decide

/-! ## C9 - the AI-fallback write is not conditioned on the status -/

/-- C9 at the failing input: the fallback timer re-reads the entry
while it is still waiting; the Matcher then claims the entry (CAS,
producing human room 100); the fallback nevertheless proceeds on its
stale snapshot, creates AI room 200 and overwrites the entry - because
its update is filtered by the entry id only, not by status = waiting.
Two rooms now exist for the one queue entry and the entry was rewritten
after it had already transitioned to matched. -/
theorem fallback_race_creates_second_room :
    (matcherClaimEntry
        (aiFallbackRead
          { entry := { id := 7, user_id := 1, format := .BP, mode := .ranked,
                       status := .waiting, room_id := none },
            rooms := [], fallbackSnapshot := none }) 100).entry.status
      = QueueStatus.matched
  ∧ (matcherClaimEntry
        (aiFallbackRead
          { entry := { id := 7, user_id := 1, format := .BP, mode := .ranked,
                       status := .waiting, room_id := none },
            rooms := [], fallbackSnapshot := none }) 100).entry.room_id
      = some 100
  ∧ (aiFallbackAct
        (matcherClaimEntry
          (aiFallbackRead
            { entry := { id := 7, user_id := 1, format := .BP, mode := .ranked,
                         status := .waiting, room_id := none },
              rooms := [], fallbackSnapshot := none }) 100) 200).rooms.map
        (fun r => r.id) = [100, 200]
  ∧ (aiFallbackAct
        (matcherClaimEntry
          (aiFallbackRead
            { entry := { id := 7, user_id := 1, format := .BP, mode := .ranked,
                         status := .waiting, room_id := none },
              rooms := [], fallbackSnapshot := none }) 100) 200).entry.room_id
      = some 200 := by
  decide

/-! ## C2 - the K factor and delta at rating 1200 -/

/-- The concrete store for the boundary scenario of the claim: a
completed ranked human-vs-human room whose two participants both sit at
the default rating 1200, user 10 submitting win and user 20 submitting
loss. -/
def boundaryDb : DB :=
  { rooms := [{ id := 1, format := .BP, mode := .ranked,
                is_ai_opponent := false, created_at := 0,
                started_at := some 0, ended_at := some 60000 }]
    submissions := [{ room_id := 1, user_id := 10, submitted_result := .win },
                    { room_id := 1, user_id := 20, submitted_result := .loss }]
    participants := [{ room_id := 1, user_id := some 10, is_ai := false },
                     { room_id := 1, user_id := some 20, is_ai := false }]
    profiles := [{ id := 100, user_id := 10, elo_by_format := [],
                   total_debates := some 0, total_wins := some 0,
                   current_streak := some 0 },
                 { id := 200, user_id := 20, elo_by_format := [],
                   total_debates := some 0, total_wins := some 0,
                   current_streak := some 0 }]
    history := [] }

/-- Evaluation of settle on the boundary store: both sides start at
1200, the winner moves to 1210 and the loser to 1190. -/
theorem boundaryDb_settle_eval :
    (settle boundaryDb 1 0).2 = SettleResponse.settled 10 (-10) := by
  have hstep : (settle boundaryDb 1 0).2
      = SettleResponse.settled
          (newRating 1200 20 1 (expectedScore 1200 1200) - 1200)
          (newRating 1200 20 0 (expectedScore 1200 1200) - 1200) := rfl
  rw [hstep, expectedScore_self, newRating_1200_win, newRating_1200_loss]
  decide

/-- C2 counterexample: at ratingA = ratingB = 1200 with a decisive win
for A, the code does NOT use K = 40 and does NOT apply deltas +20 and
-20: getKFactor 1200 is 20 (the strict below-1200 test fails at the
boundary) and settle returns deltas +10 and -10. -/
theorem k_factor_at_1200_claim_false :
    getKFactor 1200 ≠ 40
  ∧ (settle boundaryDb 1 0).2 ≠ SettleResponse.settled 20 (-20) := by
  constructor
  · decide
  · rw [boundaryDb_settle_eval]
    decide

/-- C2 amended: at ratingA = ratingB = 1200 both sides fall into the
1200-2000 tier, so settle uses K = 20 for both, computes
expected(A) = 0.5, and a decisive win for A yields deltas +10 for A and
-10 for B. -/
theorem k_factor_at_1200_amended :
    getKFactor 1200 = 20
  ∧ expectedScore 1200 1200 = 1/2
  ∧ (settle boundaryDb 1 0).2 = SettleResponse.settled 10 (-10) :=
  ⟨by decide, expectedScore_self 1200, boundaryDb_settle_eval⟩

/-! ## C1 - settlement is not idempotent -/

/-- C1 at the failing input: invoking settle twice on the same
completed, consistent, ranked human-vs-human room re-runs the full
settlement.  The second invocation is not a no-op: it inserts a second
match_history row for the same room and applies the profile side
effects again (both participants' session counters reach 2 after two
calls over one session, and the winner's win counter reaches 2), and it
returns a settled response rather than skipping.  No guard on the
history record's existence or on a terminal room status exists in the
handler. -/
theorem settle_not_idempotent :
    ((settle boundaryDb 1 0).1.history.length = 1)
  ∧ ((settle (settle boundaryDb 1 0).1 1 0).1.history.length = 2)
  ∧ ((settle (settle boundaryDb 1 0).1 1 0).1.history.map
        (fun h => h.room_id) = [1, 1])
  ∧ ((settle (settle boundaryDb 1 0).1 1 0).1.profiles.map
        (fun p => p.total_debates) = [some 2, some 2])
  ∧ ((settle (settle boundaryDb 1 0).1 1 0).1.profiles.map
        (fun p => p.total_wins) = [some 2, some 0])
  ∧ (∃ a b, (settle (settle boundaryDb 1 0).1 1 0).2
        = SettleResponse.settled a b) :=
  ⟨rfl, rfl, rfl, rfl, rfl, ⟨_, _, rfl⟩⟩

/-! ## C3 - inconsistent results leave the store untouched -/

/-- C3: whenever the two result submissions of a ranked human-vs-human
room do not form win plus loss (in either order) and are not both draw,
settle answers inconsistentResults and returns the store unchanged, so
no rating update happens, no history row is created, and the
submissions can be replaced and settlement retried. -/
theorem settle_inconsistent_results (db : DB) (roomId : ℕ) (now : ℤ)
    (room : Room) (s1 s2 : Submission)
    (hroom : db.rooms.find? (fun r => r.id == roomId) = some room)
    (hmode : room.mode = MatchMode.ranked)
    (hai : room.is_ai_opponent = false)
    (hsubs : db.submissions.filter (fun s => s.room_id == roomId) = [s1, s2])
    (hbad : ¬ ((s1.submitted_result = .win ∧ s2.submitted_result = .loss)
             ∨ (s1.submitted_result = .loss ∧ s2.submitted_result = .win)
             ∨ (s1.submitted_result = .draw ∧ s2.submitted_result = .draw))) :
    settle db roomId now = (db, SettleResponse.inconsistentResults) := by
  have hcons : resultsConsistent [s1.submitted_result, s2.submitted_result]
      = false := by
    cases hr1 : s1.submitted_result <;> cases hr2 : s2.submitted_result <;>
      simp_all [resultsConsistent]
  unfold settle
  rw [hroom]
  simp [hmode, hai, hsubs, hcons]

/-- The store of the win-win scenario: both participants of the ranked
room claim the win. -/
def winWinDb : DB :=
  { boundaryDb with
    submissions := [{ room_id := 1, user_id := 10, submitted_result := .win },
                    { room_id := 1, user_id := 20, submitted_result := .win }] }

/-- Witness for C3: on the win-win store settle surfaces
inconsistentResults and changes nothing. -/
theorem settle_inconsistent_results_witness :
    settle winWinDb 1 0 = (winWinDb, SettleResponse.inconsistentResults) :=
  settle_inconsistent_results winWinDb 1 0
    { id := 1, format := .BP, mode := .ranked, is_ai_opponent := false,
      created_at := 0, started_at := some 0, ended_at := some 60000 }
    { room_id := 1, user_id := 10, submitted_result := .win }
    { room_id := 1, user_id := 20, submitted_result := .win }
    (by decide) (by decide) (by decide) (by decide) (by decide)

/-! ## C8 - at most one waiting queue entry per participant -/

/-- C8: joinQueue (delete the caller's waiting entries, then insert a
fresh waiting entry) preserves the unique-partial-index invariant that
each user has at most one waiting entry, and afterwards the caller's
waiting entries are exactly the single fresh one. -/
theorem joinQueue_one_waiting (q : List QueueEntry) (uid newId : ℕ)
    (format : DebateFormat) (mode : MatchMode)
    (h : one_active_queue_per_user_waiting q) :
    one_active_queue_per_user_waiting (joinQueue q uid newId format mode)
  ∧ (joinQueue q uid newId format mode).filter
      (fun e => e.user_id == uid && e.status == QueueStatus.waiting)
    = [{ id := newId, user_id := uid, format := format, mode := mode,
         status := QueueStatus.waiting, room_id := none }] := by
  have hpart2 : (joinQueue q uid newId format mode).filter
      (fun e => e.user_id == uid && e.status == QueueStatus.waiting)
    = [{ id := newId, user_id := uid, format := format, mode := mode,
         status := QueueStatus.waiting, room_id := none }] := by
    unfold joinQueue deleteWaitingOf
    rw [List.filter_append, List.filter_filter]
    simp
  refine ⟨?_, hpart2⟩
  unfold one_active_queue_per_user_waiting
  intro u hu
  by_cases huid : u = uid
  · subst huid
    rw [hpart2]
    simp
  · have hne : ∀ e : QueueEntry,
        ((fun e => e.user_id == u && e.status == QueueStatus.waiting) e = true)
          → e ∈ q → e.user_id = u := by
      intro e he _
      simp only [Bool.and_eq_true, beq_iff_eq] at he
      exact he.1
    have hjq : (joinQueue q uid newId format mode).filter
        (fun e => e.user_id == u && e.status == QueueStatus.waiting)
      = (deleteWaitingOf q uid).filter
        (fun e => e.user_id == u && e.status == QueueStatus.waiting) := by
      unfold joinQueue
      rw [List.filter_append]
      have : ([{ id := newId, user_id := uid, format := format, mode := mode,
                 status := QueueStatus.waiting, room_id := none }]
              : List QueueEntry).filter
          (fun e => e.user_id == u && e.status == QueueStatus.waiting) = [] := by
        simp [Ne.symm huid]
      rw [this, List.append_nil]
    rw [hjq]
    have hsub : List.Sublist
        ((deleteWaitingOf q uid).filter
          (fun e => e.user_id == u && e.status == QueueStatus.waiting))
        (q.filter (fun e => e.user_id == u && e.status == QueueStatus.waiting)) :=
      List.Sublist.filter _ (List.filter_sublist q)
    have hlen := hsub.length_le
    have hmem : u ∈ q.map (fun e => e.user_id) := by
      rcases List.mem_map.mp hu with ⟨e, hemem, heq⟩
      unfold joinQueue deleteWaitingOf at hemem
      rcases List.mem_append.mp hemem with hdel | hnew
      · exact List.mem_map.mpr ⟨e, List.mem_of_mem_filter hdel, heq⟩
      · rw [List.mem_singleton] at hnew
        subst hnew
        exact absurd heq.symm (by simpa using huid)
    exact le_trans hlen (h u hmem)

/-- Witness for C8: re-queueing user 5, who already has a waiting entry
in a queue that also holds a matched entry of user 6, keeps the
one-waiting-entry-per-user invariant and leaves user 5 with exactly the
fresh waiting entry. -/
theorem joinQueue_one_waiting_witness :
    one_active_queue_per_user_waiting
      (joinQueue
        [{ id := 1, user_id := 5, format := .BP, mode := .ranked,
           status := QueueStatus.waiting, room_id := none },
         { id := 2, user_id := 6, format := .AP, mode := .unranked,
           status := QueueStatus.matched, room_id := some 9 }]
        5 3 .BP .ranked)
  ∧ (joinQueue
        [{ id := 1, user_id := 5, format := .BP, mode := .ranked,
           status := QueueStatus.waiting, room_id := none },
         { id := 2, user_id := 6, format := .AP, mode := .unranked,
           status := QueueStatus.matched, room_id := some 9 }]
        5 3 .BP .ranked).filter
      (fun e => e.user_id == 5 && e.status == QueueStatus.waiting)
    = [{ id := 3, user_id := 5, format := .BP, mode := .ranked,
         status := QueueStatus.waiting, room_id := none }] :=
  joinQueue_one_waiting
    [{ id := 1, user_id := 5, format := .BP, mode := .ranked,
       status := QueueStatus.waiting, room_id := none },
     { id := 2, user_id := 6, format := .AP, mode := .unranked,
       status := QueueStatus.matched, room_id := some 9 }]
    5 3 .BP .ranked (by decide)

/-! ## C10 - a consistent draw still counts the session and resets streaks -/

/-- C10: when settle processes a consistent draw it still increments
both participants' total_debates by one and resets both
current_streak values to zero, while leaving both total_wins
unchanged - a draw breaks a win streak even though neither side won. -/
theorem settle_draw_side_effects (db : DB) (roomId : ℕ) (now : ℤ)
    (room : Room) (s1 s2 : Submission) (userA userB : Profile)
    (hroom : db.rooms.find? (fun r => r.id == roomId) = some room)
    (hmode : room.mode = MatchMode.ranked)
    (hai : room.is_ai_opponent = false)
    (hsubs : db.submissions.filter (fun s => s.room_id == roomId) = [s1, s2])
    (hd1 : s1.submitted_result = .draw)
    (hd2 : s2.submitted_result = .draw)
    (hparts : ¬ (db.participants.filter
        (fun p => p.room_id == roomId && !p.is_ai)).length < 2)
    (hprofiles : db.profiles = [userA, userB])
    (hfilter : db.profiles.filter (fun pr =>
        ((db.participants.filter (fun p => p.room_id == roomId && !p.is_ai)).map
          (fun p => p.user_id)).contains (some pr.user_id)) = [userA, userB])
    (hids : userA.id ≠ userB.id) :
    ((settle db roomId now).1.profiles.map (fun p => p.total_debates)
      = [some (userA.total_debates.getD 0 + 1),
         some (userB.total_debates.getD 0 + 1)])
  ∧ ((settle db roomId now).1.profiles.map (fun p => p.total_wins)
      = [userA.total_wins, userB.total_wins])
  ∧ ((settle db roomId now).1.profiles.map (fun p => p.current_streak)
      = [some 0, some 0]) := by
  have hcons2 : resultsConsistent [MatchResult.draw, MatchResult.draw] = true := by
    decide
  have hdrawall :
      ([MatchResult.draw, MatchResult.draw].all (fun r => r == MatchResult.draw))
        = true := by decide
  have hhalf : ((1/2 : ℚ) = 1) = False :=
    eq_false (by norm_num)
  have hbeqBA : (userB.id == userA.id) = false := by
    simpa using Ne.symm hids
  have hbeqAB : (userA.id == userB.id) = false := by
    simpa using hids
  unfold settle
  rw [hroom]
  simp only [hmode, hai, hsubs, hd1, hd2, List.map_cons, List.map_nil]
  rw [hfilter]
  simp [hcons2, hdrawall, hparts, hhalf, hbeqBA, hbeqAB, hids, Ne.symm hids,
    hprofiles, Function.comp]

/-- The store of the draw scenario: both participants of the ranked
room submit draw. -/
def drawDb : DB :=
  { boundaryDb with
    submissions := [{ room_id := 1, user_id := 10, submitted_result := .draw },
                    { room_id := 1, user_id := 20, submitted_result := .draw }] }

/-- Witness for C10: on the draw store both session counters go from 0
to 1, both win counters stay 0, and both streaks are reset to 0. -/
theorem settle_draw_side_effects_witness :
    ((settle drawDb 1 0).1.profiles.map (fun p => p.total_debates)
      = [some 1, some 1])
  ∧ ((settle drawDb 1 0).1.profiles.map (fun p => p.total_wins)
      = [some 0, some 0])
  ∧ ((settle drawDb 1 0).1.profiles.map (fun p => p.current_streak)
      = [some 0, some 0]) :=
  settle_draw_side_effects drawDb 1 0
    { id := 1, format := .BP, mode := .ranked, is_ai_opponent := false,
      created_at := 0, started_at := some 0, ended_at := some 60000 }
    { room_id := 1, user_id := 10, submitted_result := .draw }
    { room_id := 1, user_id := 20, submitted_result := .draw }
    { id := 100, user_id := 10, elo_by_format := [],
      total_debates := some 0, total_wins := some 0, current_streak := some 0 }
    { id := 200, user_id := 20, elo_by_format := [],
      total_debates := some 0, total_wins := some 0, current_streak := some 0 }
    (by decide) (by decide) (by decide) (by decide) (by decide) (by decide)
    (by decide) (by decide) (by decide) (by decide)

/-! ## C4 - the rating update formula

The definitions prefixed with spec are written from the spec's own
words (section 4.4), to be compared with the embedding of the code. -/

/-- The expected-score formula as the spec states it:
expected(A) = 1 / (1 + 10^((ratingB - ratingA)/400)), symmetric for B. -/
noncomputable def specExpected (ratingSelf ratingOpp : ℤ) : ℝ :=
  1 / (1 + (10 : ℝ) ^ (((ratingOpp : ℝ) - (ratingSelf : ℝ)) / 400))

/-- The winner of a consistent submission pair per the spec: the party
who declared win; none on a draw. -/
def specWinner (s1 s2 : Submission) : Option ℕ :=
  if s1.submitted_result = .win then some s1.user_id
  else if s2.submitted_result = .win then some s2.user_id
  else none

/-- The actual score per the spec: 1 for the winner, 0 for the loser,
one half each on a draw. -/
def specActualScore (uid : ℕ) (s1 s2 : Submission) : ℚ :=
  match specWinner s1 s2 with
  | none => 1/2
  | some w => if w = uid then 1 else 0

/-- The per-side rating update as the spec states it:
newRating = round(oldRating + K x (actual - expected)), K drawn from
the side's own rating tier. -/
noncomputable def specNewRating (selfRating oppRating : ℤ) (actual : ℚ) : ℤ :=
  round ((selfRating : ℝ)
    + ((getKFactor selfRating : ℕ) : ℝ)
      * ((actual : ℝ) - specExpected selfRating oppRating))

/-- The code's rating update coincides with the spec's formula when fed
the code's own expected score. -/
theorem newRating_eq_spec (self opp : ℤ) (actual : ℚ) :
    newRating self (getKFactor self) actual (expectedScore self opp)
      = specNewRating self opp actual := rfl

/-- After a setElo write the format key holds exactly the written value. -/
theorem lookupElo_setElo (elo : List (DebateFormat × ℤ)) (f : DebateFormat)
    (v : ℤ) : lookupElo (setElo elo f v) f = some v := by
  unfold lookupElo setElo
  rw [List.find?_append]
  have h1 : (elo.filter (fun p => !(p.1 == f))).find? (fun p => p.1 == f)
      = none := by
    rw [List.find?_eq_none]
    intro x hx
    have hmem := List.of_mem_filter hx
    simpa using hmem
  rw [h1]
  simp

/-- C4: for every consistent settlement the expected score follows the
spec formula, the actual scores are 1 and 0 for a decisive result and
one half each for a draw, and each side's new stored per-format rating
and the returned deltas equal round(old + K x (actual - expected))
computed independently per side with that side's own K tier. -/
theorem settle_rating_formula (db : DB) (roomId : ℕ) (now : ℤ)
    (room : Room) (s1 s2 : Submission) (userA userB : Profile)
    (hroom : db.rooms.find? (fun r => r.id == roomId) = some room)
    (hmode : room.mode = MatchMode.ranked)
    (hai : room.is_ai_opponent = false)
    (hsubs : db.submissions.filter (fun s => s.room_id == roomId) = [s1, s2])
    (hcons : resultsConsistent [s1.submitted_result, s2.submitted_result] = true)
    (hparts : ¬ (db.participants.filter
        (fun p => p.room_id == roomId && !p.is_ai)).length < 2)
    (hprofiles : db.profiles = [userA, userB])
    (hfilter : db.profiles.filter (fun pr =>
        ((db.participants.filter (fun p => p.room_id == roomId && !p.is_ai)).map
          (fun p => p.user_id)).contains (some pr.user_id)) = [userA, userB])
    (hids : userA.id ≠ userB.id)
    (huid : userA.user_id ≠ userB.user_id)
    (husers : (s1.user_id = userA.user_id ∧ s2.user_id = userB.user_id)
            ∨ (s1.user_id = userB.user_id ∧ s2.user_id = userA.user_id)) :
    ((settle db roomId now).2
      = SettleResponse.settled
          (specNewRating (ratingFor userA room.format)
              (ratingFor userB room.format)
              (specActualScore userA.user_id s1 s2)
            - ratingFor userA room.format)
          (specNewRating (ratingFor userB room.format)
              (ratingFor userA room.format)
              (specActualScore userB.user_id s1 s2)
            - ratingFor userB room.format))
  ∧ ((settle db roomId now).1.profiles.map
        (fun p => lookupElo p.elo_by_format room.format)
      = [some (specNewRating (ratingFor userA room.format)
            (ratingFor userB room.format)
            (specActualScore userA.user_id s1 s2)),
         some (specNewRating (ratingFor userB room.format)
            (ratingFor userA room.format)
            (specActualScore userB.user_id s1 s2))])
  ∧ expectedScore (ratingFor userA room.format) (ratingFor userB room.format)
      = specExpected (ratingFor userA room.format)
          (ratingFor userB room.format) := by
  have hbeqBA : (userB.id == userA.id) = false := by
    simpa using Ne.symm hids
  have hbeqAB : (userA.id == userB.id) = false := by
    simpa using hids
  cases hr1 : s1.submitted_result <;> cases hr2 : s2.submitted_result <;>
    (try (simp [hr1, hr2, resultsConsistent] at hcons)) <;>
    rcases husers with ⟨h1u, h2u⟩ | ⟨h1u, h2u⟩ <;>
    refine ⟨?_, ?_, rfl⟩ <;>
    · unfold settle
      rw [hroom]
      simp only [hmode, hai, hsubs, hr1, hr2, List.map_cons, List.map_nil]
      rw [hfilter]
      simp [hparts, hbeqBA, hbeqAB, hids, Ne.symm hids, huid, Ne.symm huid,
        hprofiles, Function.comp, h1u, h2u, resultsConsistent,
        specActualScore, specWinner, hr1, hr2, lookupElo_setElo,
        newRating_eq_spec]

/-- Witness for C4: on the boundary store (decisive win of user 10 over
user 20, both at 1200) the response deltas and the stored ratings equal
the spec formula evaluated per side. -/
theorem settle_rating_formula_witness :
    ((settle boundaryDb 1 0).2
      = SettleResponse.settled (specNewRating 1200 1200 1 - 1200)
          (specNewRating 1200 1200 0 - 1200))
  ∧ ((settle boundaryDb 1 0).1.profiles.map
        (fun p => lookupElo p.elo_by_format .BP)
      = [some (specNewRating 1200 1200 1), some (specNewRating 1200 1200 0)])
  ∧ expectedScore 1200 1200 = specExpected 1200 1200 :=
  settle_rating_formula boundaryDb 1 0
    { id := 1, format := .BP, mode := .ranked, is_ai_opponent := false,
      created_at := 0, started_at := some 0, ended_at := some 60000 }
    { room_id := 1, user_id := 10, submitted_result := .win }
    { room_id := 1, user_id := 20, submitted_result := .loss }
    { id := 100, user_id := 10, elo_by_format := [],
      total_debates := some 0, total_wins := some 0, current_streak := some 0 }
    { id := 200, user_id := 20, elo_by_format := [],
      total_debates := some 0, total_wins := some 0, current_streak := some 0 }
    (by decide) (by decide) (by decide) (by decide) (by decide) (by decide)
    (by decide) (by decide) (by decide) (by decide) (Or.inl ⟨rfl, rfl⟩)

end Rebutly
